import Mathlib

/-!
Shallow embedding of the ramino card engine (src/card.rs, src/run.rs,
src/hand.rs) and proofs about its run-classification, ordering, scoring
and coercion behaviour.

Conventions of the embedding:
* Rust u8 values are modelled as Nat; wherever the source performs u8
  arithmetic (the subtraction in Card::get_distance, the accumulating sums
  in verify_run and Hand::score, the `as u8` cast of a length), the
  operation is taken modulo 256, i.e. release-mode wrapping semantics.
* Rust's `assert!` macro aborts the process; verify_run therefore returns
  a three-way outcome: Ok(run), Err(()) or an assertion failure, the last
  modelled by dedicated constructors naming which assert fired.
-/

/-- CardType from src/card.rs. The Number payload is a u8 in the source
(intended range 2..=10, not enforced there); here it is a Nat. -/
inductive CardType where
  | Number (n : Nat)
  | Jack
  | Queen
  | King
  | Ace
  | Joker
deriving DecidableEq

/-- Suit from src/card.rs, in source declaration order (the derived Rust
Ord on this enum orders by declaration: Spades < Diamonds < Clubs <
Hearts < JokerSuit). -/
inductive Suit where
  | Spades
  | Diamonds
  | Clubs
  | Hearts
  | JokerSuit
deriving DecidableEq, Fintype

/-- Card struct from src/card.rs: a (card_type, suit) pair with value
semantics. -/
structure Card where
  card_type : CardType
  suit : Suit
deriving DecidableEq

/-- CardOrdering from src/card.rs: WellDefined carries a std::cmp::Ordering,
IllDefined marks comparisons with no sensible linear result. -/
inductive CardOrdering where
  | WellDefined (o : Ordering)
  | IllDefined
deriving DecidableEq

/-- Numeric rank of the derived Suit Ord (declaration order in the
source enum). -/
def suitVal : Suit → Nat
  | Suit.Spades => 0
  | Suit.Diamonds => 1
  | Suit.Clubs => 2
  | Suit.Hearts => 3
  | Suit.JokerSuit => 4

/-- The derived `Ord for Suit` comparison from src/card.rs. -/
def suitCmp (a b : Suit) : Ordering := Ord.compare (suitVal a) (suitVal b)

/-- Card::get_comparison_value from src/card.rs: Ace is 1, numbers are
their face value, Jack 11, Queen 12, King 13, Joker the sentinel 99. -/
def Card.get_comparison_value (c : Card) : Nat :=
  match c.card_type with
  | CardType.Ace => 1
  | CardType.Number n => n
  | CardType.Jack => 11
  | CardType.Queen => 12
  | CardType.King => 13
  | CardType.Joker => 99

/-- Card::compare from src/card.rs. The source binds self_val/other_val;
the sequence of early returns becomes nested ifs here. -/
def Card.compare (a b : Card) : CardOrdering :=
  if a.suit = b.suit then
    if a.get_comparison_value = 1 ∧ b.get_comparison_value = 13 then
      CardOrdering.WellDefined Ordering.lt
    else if a.get_comparison_value = 13 ∧ b.get_comparison_value = 1 then
      CardOrdering.WellDefined Ordering.gt
    else if a.get_comparison_value = 99 ∨ b.get_comparison_value = 99 then
      CardOrdering.IllDefined
    else
      CardOrdering.WellDefined (Ord.compare a.get_comparison_value b.get_comparison_value)
  else
    CardOrdering.IllDefined

/-- PartialOrd for Card from src/card.rs: same suit delegates to compare
(None on IllDefined), different suits fall back to the derived suit order. -/
def Card.partial_cmp (a b : Card) : Option Ordering :=
  if a.suit = b.suit then
    match Card.compare a b with
    | CardOrdering.WellDefined o => some o
    | CardOrdering.IllDefined => none
  else
    some (suitCmp a.suit b.suit)

/-- Ord for Card from src/card.rs: partial_cmp with unwrap_or(Less). -/
def Card.cmp (a b : Card) : Ordering :=
  (Card.partial_cmp a b).getD Ordering.lt

/-- Card::get_distance from src/card.rs. The u8 subtraction
other_val - self_val is embedded with wrapping (mod 256) semantics. -/
def Card.get_distance (a b : Card) : Nat :=
  if a.get_comparison_value = 1 ∧ b.get_comparison_value = 13 then 1
  else (b.get_comparison_value % 256 + 256 - a.get_comparison_value % 256) % 256

/-- Card::score from src/card.rs: numbers score their value, Ace 11,
Joker 25, and the remaining faces (Jack, Queen, King) 10. -/
def Card.score (c : Card) : Nat :=
  match c.card_type with
  | CardType.Number n => n
  | CardType.Ace => 11
  | CardType.Joker => 25
  | _ => 10

/-- Run from src/run.rs. -/
inductive Run where
  | Ascending (cards : List Card)
  | Equal (cards : List Card)
deriving DecidableEq

/-- The card list carried by either Run variant. -/
def Run.cards : Run → List Card
  | Run.Ascending cs => cs
  | Run.Equal cs => cs

/-- Outcome of verify_run. Rust asserts abort; they are modelled as the two
dedicated constructors below rather than as Err values.
assertLen is the failure of
assert!(cards.len() >= 3, "A run must consist of at least three cards.");
assertDup is the failure of
assert!(dedupped == cards, "A run cannot contain duplicate cards."). -/
inductive VerifyResult where
  | ok (r : Run)
  | err
  | assertLen
  | assertDup
deriving DecidableEq

/-- Helper for Vec::dedup: drops each element equal to the most recently
kept one. -/
def dedupFrom (prev : Card) : List Card → List Card
  | [] => []
  | b :: rest => if b = prev then dedupFrom prev rest else b :: dedupFrom b rest

/-- Vec::dedup from the standard library as used in verify_run: removes
consecutive repeated elements, keeping the first of each group. -/
def dedupCards : List Card → List Card
  | [] => []
  | a :: rest => a :: dedupFrom a rest

/-- Indexing cards[0] as used by the all-same-type check; total with an
arbitrary value on [] (unreachable: verify_run asserts length >= 3 first). -/
def headCardType : List Card → CardType
  | [] => CardType.Joker
  | c :: _ => c.card_type

/-- The suit scan inside the Equal branch of verify_run: push unseen suits,
break at the first repeated suit. The source never reads the resulting
vector afterwards — the branch returns Ok(Equal(cards)) regardless. -/
def suits_seen_so_far (seen : List Suit) : List Card → List Suit
  | [] => seen
  | c :: rest =>
    if c.suit ∈ seen then seen else suits_seen_so_far (seen ++ [c.suit]) rest

/-- Stable insertion used to model Vec::sort (a stable sort by Ord::cmp):
the new card goes after every existing card not greater than it. -/
def insertCard (c : Card) : List Card → List Card
  | [] => [c]
  | x :: xs => if Card.cmp x c = Ordering.gt then c :: x :: xs else x :: insertCard c xs

/-- cards.sort() from verify_run: stable sort by the Ord for Card. -/
def sortCards (cards : List Card) : List Card :=
  cards.foldl (fun acc c => insertCard c acc) []

/-- The windows(2).fold(0u8, ..) distance accumulation from verify_run,
with u8 wrapping addition. -/
def distSumAux : Nat → List Card → Nat
  | acc, a :: b :: rest => distSumAux ((acc + Card.get_distance a b) % 256) (b :: rest)
  | acc, _ => acc

/-- verify_run from src/run.rs, translated clause by clause:
assert length >= 3; assert dedup leaves the vector unchanged; if all cards
share the first card's type, scan suits (result discarded) and return
Ok(Equal(cards)); otherwise sort, and fail iff the accumulated u8 distance
sum exceeds cards.len() as u8, else Ok(Ascending(sorted)). -/
def verify_run (cards : List Card) : VerifyResult :=
  if cards.length < 3 then VerifyResult.assertLen
  else if dedupCards cards ≠ cards then VerifyResult.assertDup
  else if cards.all (fun c => c.card_type == headCardType cards) then
    let _seen := suits_seen_so_far [] cards
    VerifyResult.ok (Run.Equal cards)
  else if distSumAux 0 (sortCards cards) > cards.length % 256 then VerifyResult.err
  else VerifyResult.ok (Run.Ascending (sortCards cards))

/-- HAND_SIZE from src/lib.rs. -/
def HAND_SIZE : Nat := 13

/-- Hand from src/hand.rs: a list of cards. -/
structure Hand where
  cards : List Card
deriving DecidableEq

/-- Hand::score from src/hand.rs: 100 for a full 13-card hand, 1 for a
hand holding a single Ace, otherwise the u8 fold of per-card scores
(wrapping addition). -/
def Hand.score (h : Hand) : Nat :=
  if h.cards.length = HAND_SIZE then 100
  else if h.cards.length = 1 ∧ headCardType h.cards = CardType.Ace then 1
  else h.cards.foldl (fun acc c => (acc + Card.score c) % 256) 0

/-- Shorthand for concrete test cards. -/
def mkCard (t : CardType) (s : Suit) : Card := Card.mk t s

/-- RunCoercionStrategy from src/run.rs. The suit_preference field is a
[Suit; 4] array in the source (an ordered permutation of the four real
suits); it is modelled as a list. -/
structure RunCoercionStrategy where
  prefer_ascending : Bool
  highest_possible : Bool
  suit_preference : List Suit
deriving DecidableEq

/-- Whether a card is a Joker-rank card. -/
def Card.isJoker (c : Card) : Bool := c.card_type == CardType.Joker

/-- Replace the Jokers of a card list, in order, by the successive cards of
the stand-in list; non-Joker cards are kept unchanged. Fails (None) when a
Joker remains but the stand-in list is exhausted, modelling the spec's
UnresolvableJoker outcome. -/
def fillJokers : List Card → List Card → Option (List Card)
  | _, [] => some []
  | repl, c :: rest =>
    if c.isJoker then
      match repl with
      | [] => none
      | r :: rs => Option.map (fun l => r :: l) (fillJokers rs rest)
    else
      Option.map (fun l => c :: l) (fillJokers repl rest)

/-- Modelled from the spec: the stand-in cards available to Jokers of an
Equal run (Run::coerce_to_real in src/run.rs is declared but its body is
unimplemented). Each Joker receives the run's common rank and the first
suit of strategy.suit_preference not already used by another card in the
run; successive Jokers consume successive unused preferred suits, and a
Joker left without an unused suit is unresolvable. -/
def equalStandIns (strategy : RunCoercionStrategy) (cards : List Card) : List Card :=
  match (cards.filter (fun c => !c.isJoker)).head? with
  | none => []
  | some c0 =>
    let used := (cards.filter (fun c => !c.isJoker)).map Card.suit
    (strategy.suit_preference.filter (fun s => s ∉ used)).map
      (fun s => Card.mk c0.card_type s)

/-- Rank whose comparison key is the given value (inverse of
Card::get_comparison_value on real ranks). -/
def rankOfValue (v : Nat) : CardType :=
  if v = 1 then CardType.Ace
  else if v = 11 then CardType.Jack
  else if v = 12 then CardType.Queen
  else if v = 13 then CardType.King
  else CardType.Number v

/-- Modelled from the spec: the stand-in cards available to Jokers of an
Ascending run (Run::coerce_to_real in src/run.rs is declared but its body
is unimplemented). Each Joker receives the run's common suit and a value
filling a gap of one in the consecutive sequence; internal gaps are filled
first in ascending order, and a Joker at an open end extends the sequence
upward when strategy.highest_possible is true and downward otherwise
(falling back to the other direction, within the 1..13 value range,
before declaring the Joker unresolvable). -/
def ascendingStandIns (strategy : RunCoercionStrategy) (cards : List Card) : List Card :=
  match (cards.filter (fun c => !c.isJoker)).head? with
  | none => []
  | some c0 =>
    let vals := (cards.filter (fun c => !c.isJoker)).map Card.get_comparison_value
    let lo := vals.foldl Nat.min 14
    let hi := vals.foldl Nat.max 0
    let internal := (List.range' (lo + 1) (hi - lo - 1)).filter (fun v => v ∉ vals)
    let upward := List.range' (hi + 1) (13 - hi)
    let downward := (List.range' 1 (lo - 1)).reverse
    let extra := if strategy.highest_possible then upward ++ downward
                 else downward ++ upward
    (internal ++ extra).map (fun v => Card.mk (rankOfValue v) c0.suit)

/-- Modelled from the spec: Run::coerce_to_real (declared in src/run.rs
with an unimplemented body). A new run with the same variant tag is
returned, with every Joker replaced by a concrete stand-in card chosen per
strategy (section 4.3 of the spec); None models the UnresolvableJoker
failure. -/
def Run.coerce_to_real (r : Run) (strategy : RunCoercionStrategy) : Option Run :=
  match r with
  | Run.Equal cards => Option.map Run.Equal (fillJokers (equalStandIns strategy cards) cards)
  | Run.Ascending cards => Option.map Run.Ascending (fillJokers (ascendingStandIns strategy cards) cards)

/-- Concrete cards used by the claim theorems below. -/
def twoSpades : Card := mkCard (CardType.Number 2) Suit.Spades

def threeSpades : Card := mkCard (CardType.Number 3) Suit.Spades

def fourSpades : Card := mkCard (CardType.Number 4) Suit.Spades

def sixSpades : Card := mkCard (CardType.Number 6) Suit.Spades

def twoDiamonds : Card := mkCard (CardType.Number 2) Suit.Diamonds

def threeDiamonds : Card := mkCard (CardType.Number 3) Suit.Diamonds

def twoHearts : Card := mkCard (CardType.Number 2) Suit.Hearts

def threeHearts : Card := mkCard (CardType.Number 3) Suit.Hearts

def queenSpades : Card := mkCard CardType.Queen Suit.Spades

def kingSpades : Card := mkCard CardType.King Suit.Spades

def aceSpades : Card := mkCard CardType.Ace Suit.Spades

def jokerCard : Card := mkCard CardType.Joker Suit.JokerSuit

def fiveSpades : Card := mkCard (CardType.Number 5) Suit.Spades

def jokerSpades : Card := mkCard CardType.Joker Suit.Spades

/-- A concrete strategy for witnesses. -/
def defaultStrategy : RunCoercionStrategy :=
  RunCoercionStrategy.mk true true [Suit.Spades, Suit.Diamonds, Suit.Clubs, Suit.Hearts]

/-- Claim C1: the claim says a same-rank collection with a repeated suit is
rejected with a hard DuplicateSuitInEqualRun failure. The code instead
breaks out of its suit scan, discards the scan's result, and returns
Ok(Equal): on the concrete input [3♥, 3♦, 3♥] (which passes the adjacent
dedup check) verify_run returns an Equal run. -/
theorem verify_run_accepts_repeated_suit_equal :
    verify_run [threeHearts, threeDiamonds, threeHearts] =
      VerifyResult.ok (Run.Equal [threeHearts, threeDiamonds, threeHearts]) := by
  decide

/-- Claim C2: the claim says [Q♠, K♠, A♠] classifies as an Ascending run via
the circular Ace-King adjacency. The code sorts the Ace first (compare makes
the Ace Less than every other spade), giving [A♠, Q♠, K♠] whose distance sum
is 11 + 1 = 12 > 3, so verify_run returns Err(()). -/
theorem verify_run_rejects_wraparound :
    verify_run [queenSpades, kingSpades, aceSpades] = VerifyResult.err := by
  decide

/-- Claim C3: the claim says any collection containing the same card value
twice fails with DuplicateCard, including non-adjacent copies. The code's
duplicate check is Vec::dedup, which only removes consecutive repeats, so
[2♠, 2♦, 2♠] passes the assert and is accepted as an Equal run. -/
theorem verify_run_accepts_nonadjacent_duplicate :
    verify_run [twoSpades, twoDiamonds, twoSpades] =
      VerifyResult.ok (Run.Equal [twoSpades, twoDiamonds, twoSpades]) := by
  decide

/-- Claim C4: the claim (and the repository's own test) says the mixed
collection [2♠, 2♦, 3♥] fails. The code never checks that an Ascending run
is single-suited: the cross-suit distance sum here is 0 + 1 = 1 ≤ 3, so
verify_run returns Ok(Ascending([2♠, 2♦, 3♥])). -/
theorem verify_run_accepts_mixed_collection :
    verify_run [twoSpades, twoDiamonds, threeHearts] =
      VerifyResult.ok (Run.Ascending [twoSpades, twoDiamonds, threeHearts]) := by
  decide

/-- Claim C5: the claim says fewer than three cards yields the recoverable,
caller-visible TooFewCards result value. The code instead fires
assert!(cards.len() >= 3, ..), a process-aborting panic rather than an Err
value: on [2♠, 3♠] verify_run ends in the length assertion failure. -/
theorem verify_run_too_few_cards_panics :
    verify_run [twoSpades, threeSpades] = VerifyResult.assertLen := by
  decide

/-- Claim C6: when the Equal-run check does not classify (the cards do not
all share the first card's type) and the asserts pass, verify_run sorts the
cards by the derived total order, accumulates the pairwise distances (u8
arithmetic), fails exactly when the sum exceeds the card count (as u8), and
otherwise returns Ascending of the sorted cards; concretely, [2♠, 3♠, 4♠]
classifies as Ascending([2♠, 3♠, 4♠]). -/
theorem verify_run_ascending_check :
    (∀ cards : List Card,
        3 ≤ cards.length →
        dedupCards cards = cards →
        cards.all (fun c => c.card_type == headCardType cards) = false →
        verify_run cards =
          (if distSumAux 0 (sortCards cards) > cards.length % 256 then VerifyResult.err
           else VerifyResult.ok (Run.Ascending (sortCards cards))))
    ∧ verify_run [twoSpades, threeSpades, fourSpades] =
        VerifyResult.ok (Run.Ascending [twoSpades, threeSpades, fourSpades]) := by
  constructor
  · intro cards h3 hd hall
    unfold verify_run
    rw [if_neg (by omega), if_neg (by simp [hd]), if_neg (by simp [hall])]
  · decide

/-- Witness for C6: the hypotheses of the general part hold at the concrete
input [2♠, 4♠, 6♠] (length 3, no adjacent duplicates, not all of one type),
whose sorted distance sum 4 exceeds 3, so verify_run fails. -/
theorem verify_run_ascending_check_witness :
    verify_run [twoSpades, fourSpades, sixSpades] = VerifyResult.err := by
  have h := verify_run_ascending_check.1 [twoSpades, fourSpades, sixSpades]
    (by decide) (by decide) (by decide)
  simpa using h

/-- Helper: filling Jokers is the identity on a card list that contains no
Joker, whatever stand-in list is supplied. -/
theorem fillJokers_of_no_joker (cards : List Card) :
    (∀ c ∈ cards, c.card_type ≠ CardType.Joker) →
    ∀ repl : List Card, fillJokers repl cards = some cards := by
  induction cards with
  | nil => intro _ repl; rfl
  | cons c rest ih =>
    intro h repl
    have hc : c.isJoker = false := by
      simp [Card.isJoker]
      exact h c (List.mem_cons_self c rest)
    have hrest : ∀ x ∈ rest, x.card_type ≠ CardType.Joker := by
      intro x hx; exact h x (List.mem_cons_of_mem c hx)
    simp [fillJokers, hc, ih hrest repl]

/-- Claim C7: coercion is a no-op in the absence of wildcards — for every
run r containing no Jokers and every strategy s, coerce_to_real r s
succeeds and returns the run r itself (the input value is untouched, the
embedding being purely functional). -/
theorem coerce_to_real_no_jokers (r : Run) (s : RunCoercionStrategy) :
    (∀ c ∈ r.cards, c.card_type ≠ CardType.Joker) →
    Run.coerce_to_real r s = some r := by
  intro h
  cases r with
  | Ascending cards =>
    simp only [Run.cards] at h
    simp [Run.coerce_to_real, fillJokers_of_no_joker cards h]
  | Equal cards =>
    simp only [Run.cards] at h
    simp [Run.coerce_to_real, fillJokers_of_no_joker cards h]

/-- Witness for C7: the Joker-free run Ascending([2♠, 3♠, 4♠]) is returned
unchanged by coercion under a concrete strategy. -/
theorem coerce_to_real_no_jokers_witness :
    Run.coerce_to_real (Run.Ascending [twoSpades, threeSpades, fourSpades]) defaultStrategy =
      some (Run.Ascending [twoSpades, threeSpades, fourSpades]) :=
  coerce_to_real_no_jokers _ defaultStrategy (by decide)

/-- Counterexample to claim C8 as stated: the claim says every pair whose
compare relation is IllDefined — cross-suit pairs included — falls back to
the tie-break Less. For the cross-suit pair (2♥, 2♠) compare is IllDefined,
yet the total order yields Greater (the derived suit order Hearts > Spades),
not Less. -/
theorem cmp_cross_suit_not_less :
    Card.compare twoHearts twoSpades = CardOrdering.IllDefined ∧
      Card.cmp twoHearts twoSpades ≠ Ordering.lt ∧
      Card.cmp twoHearts twoSpades = Ordering.gt := by
  decide

/-- Claim C8 (amended): the total order agrees with compare whenever compare
is WellDefined; a same-suit pair whose relation is IllDefined (a Joker is
involved) falls back to the fixed tie-break Less; a cross-suit pair — also
IllDefined under compare — is instead ordered by the derived suit order. -/
theorem cmp_agrees_with_compare :
    (∀ a b : Card, ∀ o : Ordering,
        Card.compare a b = CardOrdering.WellDefined o → Card.cmp a b = o)
    ∧ (∀ a b : Card, a.suit = b.suit →
        Card.compare a b = CardOrdering.IllDefined → Card.cmp a b = Ordering.lt)
    ∧ (∀ a b : Card, a.suit ≠ b.suit → Card.cmp a b = suitCmp a.suit b.suit) := by
  refine ⟨?_, ?_, ?_⟩
  · intro a b o h
    by_cases hs : a.suit = b.suit
    · simp [Card.cmp, Card.partial_cmp, hs, h]
    · simp [Card.compare, hs] at h
  · intro a b hs h
    simp [Card.cmp, Card.partial_cmp, hs, h]
  · intro a b hs
    simp [Card.cmp, Card.partial_cmp, hs]

/-- Witness for C8 (amended), exercising the three parts at concrete pairs:
2♠ against 3♠ is WellDefined Less and sorts Less; the same-suit pair
(Joker♠, 2♠) is IllDefined and falls back to Less; the cross-suit pair
(2♥, 2♠) is ordered by the suit order. -/
theorem cmp_agrees_with_compare_witness :
    Card.cmp twoSpades threeSpades = Ordering.lt ∧
      Card.cmp jokerSpades twoSpades = Ordering.lt ∧
      Card.cmp twoHearts twoSpades = suitCmp Suit.Hearts Suit.Spades :=
  ⟨cmp_agrees_with_compare.1 twoSpades threeSpades Ordering.lt (by decide),
   cmp_agrees_with_compare.2.1 jokerSpades twoSpades (by decide) (by decide),
   cmp_agrees_with_compare.2.2 twoHearts twoSpades (by decide)⟩

/-- Claim C9: for every suit s, compare(Ace s, King s) is WellDefined Less
and compare(King s, Ace s) is WellDefined Greater (circular adjacency), and
every same-suit comparison in which either card is a Joker is IllDefined. -/
theorem compare_ace_king_and_joker :
    (∀ s : Suit,
        Card.compare (mkCard CardType.Ace s) (mkCard CardType.King s) =
          CardOrdering.WellDefined Ordering.lt
        ∧ Card.compare (mkCard CardType.King s) (mkCard CardType.Ace s) =
          CardOrdering.WellDefined Ordering.gt)
    ∧ (∀ a b : Card, a.suit = b.suit →
        (a.card_type = CardType.Joker ∨ b.card_type = CardType.Joker) →
        Card.compare a b = CardOrdering.IllDefined) := by
  constructor
  · decide
  · intro a b hs hj
    rcases hj with hj | hj
    · have h99 : a.get_comparison_value = 99 := by
        simp [Card.get_comparison_value, hj]
      simp [Card.compare, hs, h99]
    · have h99 : b.get_comparison_value = 99 := by
        simp [Card.get_comparison_value, hj]
      simp [Card.compare, hs, h99]

/-- Witness for C9: the second part applied to the same-suit pair
(Joker♠, 5♠) yields IllDefined. -/
theorem compare_ace_king_and_joker_witness :
    Card.compare jokerSpades fiveSpades = CardOrdering.IllDefined :=
  compare_ace_king_and_joker.2 jokerSpades fiveSpades (by decide) (Or.inl (by decide))

/-- Helper: the u8 score fold of Hand::score computes the plain score sum
reduced mod 256, for any starting accumulator already reduced mod 256. -/
theorem hand_foldl_eq_sum_mod (cs : List Card) :
    ∀ a : Nat,
      cs.foldl (fun acc c => (acc + Card.score c) % 256) (a % 256) =
        (a + (cs.map Card.score).sum) % 256 := by
  induction cs with
  | nil => intro a; simp
  | cons c rest ih =>
    intro a
    have h1 : (a % 256 + Card.score c) % 256 = (a + Card.score c) % 256 :=
      Nat.mod_add_mod a 256 (Card.score c)
    calc (c :: rest).foldl (fun acc c => (acc + Card.score c) % 256) (a % 256)
        = rest.foldl (fun acc c => (acc + Card.score c) % 256) ((a + Card.score c) % 256) := by
          simp [List.foldl_cons, h1]
      _ = (a + Card.score c + (rest.map Card.score).sum) % 256 := ih (a + Card.score c)
      _ = (a + ((c :: rest).map Card.score).sum) % 256 := by
          simp [List.map_cons, List.sum_cons]; ring_nf

/-- Claim C10: a Joker-rank card scores exactly 25, for any suit it carries,
with no precondition and no prior coercion; consequently a hand holding an
uncoerced Joker (in the additive branch of Hand::score, i.e. not a full
13-card hand) totals the sum of its other cards' scores plus 25 (u8 sum). -/
theorem joker_scores_twenty_five :
    (∀ s : Suit, Card.score (mkCard CardType.Joker s) = 25)
    ∧ (∀ (pre post : List Card) (s : Suit),
        (pre ++ mkCard CardType.Joker s :: post).length ≠ HAND_SIZE →
        Hand.score (Hand.mk (pre ++ mkCard CardType.Joker s :: post)) =
          (((pre ++ post).map Card.score).sum + 25) % 256) := by
  constructor
  · intro s; rfl
  · intro pre post s hlen
    unfold Hand.score
    rw [if_neg (by simpa using hlen), if_neg ?_]
    · have h0 : (0 : Nat) = 0 % 256 := rfl
      rw [h0, hand_foldl_eq_sum_mod]
      congr 1
      simp [List.map_append, List.sum_append, mkCard, Card.score]
      ring_nf
    · rintro ⟨h1, h2⟩
      simp only [List.length_append, List.length_cons] at h1
      have hpre : pre = [] := List.length_eq_zero.mp (by omega)
      subst hpre
      simp [headCardType, mkCard] at h2

/-- Witness for C10: the three-card hand [2♠, Joker, 3♠] (length 3, not a
full hand) scores 2 + 3 + 25 = 30. -/
theorem joker_scores_twenty_five_witness :
    Hand.score (Hand.mk ([twoSpades] ++ mkCard CardType.Joker Suit.JokerSuit :: [threeSpades])) =
      ((([twoSpades] ++ [threeSpades]).map Card.score).sum + 25) % 256 :=
  joker_scores_twenty_five.2 [twoSpades] [threeSpades] Suit.JokerSuit (by decide)
